import Mathlib

/-!
Shallow embedding of the MLflow Agentic Insights AI-Analysis UI
(`mlflow/server/js/.../insights/pages/ai-analysis`) together with models of the
backend investigation-store operations its specification describes.

Pure view logic (comparators, formatting, URL state, request bodies, polling
intervals) is translated directly from the TypeScript source.  Backend
operations whose implementation is not part of this source tree are modelled
from the specification and are marked as such in their doc comments.

Conventions: JavaScript numbers that hold timestamps or comparator results are
embedded as `Int`; counts as `Nat`; optional fields (`x?: T`) as `Option`;
`Record<string, any>` metadata fields carry no information relevant to any
property below and are omitted from the structures.  JavaScript strings inside
`formatValue` are embedded as `List Char` so that `length`/`take` mirror the
code-unit operations `'.length'` and `'.substring'`.
-/

/-- `severity` enum of the `Issue` response type (`types.ts`). -/
inductive Severity where
  | CRITICAL
  | HIGH
  | MEDIUM
  | LOW
deriving DecidableEq, Repr

/-- `status` enum of the `Issue` response type (`types.ts`). -/
inductive IssueStatus where
  | OPEN
  | IN_PROGRESS
  | RESOLVED
  | REJECTED
deriving DecidableEq, Repr

/-- `status` enum of the `Hypothesis` response type (`types.ts`). -/
inductive HypStatus where
  | TESTING
  | VALIDATED
  | REJECTED
deriving DecidableEq, Repr

/-- `IssueEvidence` of `types.ts`: a trace reference plus rationale. -/
structure IssueEvidence where
  trace_id : String
  rationale : String
deriving DecidableEq, Repr

/-- Hypothesis `Evidence` of `types.ts`: trace reference, rationale, polarity. -/
structure Evidence where
  trace_id : String
  rationale : String
  supports : Bool
deriving DecidableEq, Repr

/-- The `Issue` response type of `types.ts` (UI-side shape; `metadata` omitted). -/
structure Issue where
  issue_id : String
  source_run_id : Option String
  hypothesis_id : Option String
  title : String
  description : String
  severity : Severity
  status : IssueStatus
  evidence : Option (List IssueEvidence)
  trace_count : Option Nat
  assessments : Option (List String)
  resolution : Option String
  created_at : Int
  updated_at : Int
deriving DecidableEq, Repr

/-- The `Hypothesis` response type of `types.ts` (`metadata`/`metrics` omitted).
The `evidence` field is `Option`al, exactly as in the source
(`evidence?: Evidence[]  // Optional - may not be present in all responses`). -/
structure Hypothesis where
  hypothesis_id : String
  statement : String
  testing_plan : Option String
  status : HypStatus
  evidence : Option (List Evidence)
  evidence_count : Option Nat
  trace_count : Option Nat
  supports_count : Option Nat
  refutes_count : Option Nat
  created_at : Int
  updated_at : Int
deriving DecidableEq, Repr

/-- `TracePreview` of `types.ts`: lightweight trace summary. -/
structure TracePreview where
  trace_id : String
  request_id : String
  status : String
  execution_time_ms : Int
  timestamp : Int
  evidence_rationale : Option String
deriving DecidableEq, Repr

/-- `PreviewTracesResponse` of `types.ts`. -/
structure PreviewTracesResponse where
  traces : List TracePreview
  total_count : Nat
  returned_count : Nat
deriving DecidableEq, Repr

/-! ### The IssuesView comparator and client-side sort (`IssuesView.tsx`) -/

/-- `SortField` of `IssuesView.tsx`. -/
inductive SortField where
  | trace_count
  | severity
  | created_at
  | status
deriving DecidableEq, Repr

/-- `SortOrder` of `IssuesView.tsx`. -/
inductive SortOrder where
  | asc
  | desc
deriving DecidableEq, Repr

/-- The `severityOrder` table of the `sortedIssues` comparator:
`{ CRITICAL: 4, HIGH: 3, MEDIUM: 2, LOW: 1 }`. -/
def severityOrder : Severity → Int
  | .CRITICAL => 4
  | .HIGH => 3
  | .MEDIUM => 2
  | .LOW => 1

/-- The string value of an issue status, as compared by
`a.status.localeCompare(b.status)`. -/
def issueStatusString : IssueStatus → String
  | .OPEN => "OPEN"
  | .IN_PROGRESS => "IN_PROGRESS"
  | .RESOLVED => "RESOLVED"
  | .REJECTED => "REJECTED"

/-- `localeCompare` on the status strings, embedded as the sign of the
lexicographic string comparison. -/
def localeCompare (a b : String) : Int :=
  if a < b then -1 else if b < a then 1 else 0

/-- `issue.trace_count || 0`: a missing `trace_count` is treated as `0`. -/
def traceCountOrZero (i : Issue) : Nat :=
  i.trace_count.getD 0

/-- The `compareValue` computed inside the `sortedIssues` comparator of
`IssuesView.tsx`, one case per `sortField`. -/
def compareValue : SortField → Issue → Issue → Int
  | .trace_count, a, b => (traceCountOrZero a : Int) - (traceCountOrZero b : Int)
  | .severity, a, b => severityOrder a.severity - severityOrder b.severity
  | .created_at, a, b => a.created_at - b.created_at
  | .status, a, b => localeCompare (issueStatusString a.status) (issueStatusString b.status)

/-- The full comparator of `sortedIssues`:
`return sortOrder === 'desc' ? -compareValue : compareValue`. -/
def issueCompare (field : SortField) (order : SortOrder) (a b : Issue) : Int :=
  if order = .desc then -(compareValue field a b) else compareValue field a b

/-- The non-strict order induced by the comparator (`comparator a b ≤ 0`),
which is what a JavaScript stable sort establishes between adjacent
elements of its output. -/
def issueLE (field : SortField) (order : SortOrder) (a b : Issue) : Prop :=
  issueCompare field order a b ≤ 0

instance (field : SortField) (order : SortOrder) : DecidableRel (issueLE field order) :=
  fun a b => inferInstanceAs (Decidable (issueCompare field order a b ≤ 0))

/-- `sortedIssues` of `IssuesView.tsx`: the issue list sorted client-side with
the comparator above.  `Array.prototype.sort` is a stable sort; it is embedded
as the stable `List.insertionSort`. -/
def sortedIssues (field : SortField) (order : SortOrder) (issues : List Issue) : List Issue :=
  List.insertionSort (issueLE field order) issues

/-- The "trace_count descending, ties broken by created_at descending" order
between two issues (the contract order of `list_issues`). -/
def issueLexGE (a b : Issue) : Prop :=
  traceCountOrZero b < traceCountOrZero a ∨
    (traceCountOrZero a = traceCountOrZero b ∧ b.created_at ≤ a.created_at)

instance : DecidableRel issueLexGE :=
  fun a b => inferInstanceAs (Decidable (traceCountOrZero b < traceCountOrZero a ∨
    (traceCountOrZero a = traceCountOrZero b ∧ b.created_at ≤ a.created_at)))

/-- Modelled from the spec: the ordering contract of
`list_issues(experiment_id)` in QueryService (spec §4.5), whose implementation
is not part of this source tree — the returned list is "always returned sorted
by trace_count descending (ties broken by created_at descending)". -/
def BackendIssuesOrder (l : List Issue) : Prop :=
  l.Pairwise issueLexGE

instance (l : List Issue) : Decidable (BackendIssuesOrder l) :=
  inferInstanceAs (Decidable (l.Pairwise issueLexGE))

/-- A concrete issue used for evaluating the sort on explicit inputs. -/
def sampleIssue (tc : Nat) (created : Int) : Issue where
  issue_id := "issue"
  source_run_id := none
  hypothesis_id := none
  title := "title"
  description := "description"
  severity := .HIGH
  status := .OPEN
  evidence := none
  trace_count := some tc
  assessments := none
  resolution := none
  created_at := created
  updated_at := created

/-! ### Spec-modelled EntityRepository operations (backend, not in this tree) -/

/-- Error taxonomy of the investigation store (spec §7). -/
inductive RepoError where
  | NotFound
  | InvalidTransition
  | ValidationError
deriving DecidableEq, Repr

/-- Modelled from the spec: the stored Hypothesis document (spec §3), owned by
its analysis container; `evidence` is a required, append-only list. -/
structure HypothesisDoc where
  hypothesis_id : String
  statement : String
  testing_plan : String
  status : HypStatus
  evidence : List Evidence
  created_at : Int
  updated_at : Int
deriving DecidableEq, Repr

/-- Modelled from the spec: the stored Issue document (spec §3), owned by the
umbrella container; `evidence` is a required list. -/
structure IssueDoc where
  issue_id : String
  source_run_id : Option String
  hypothesis_id : Option String
  title : String
  description : String
  severity : Severity
  status : IssueStatus
  evidence : List IssueEvidence
  assessments : List String
  resolution : Option String
  created_at : Int
  updated_at : Int
deriving DecidableEq, Repr

/-- Modelled from the spec: `update_hypothesis(container_id, id, status?,
new_evidence[])` of EntityRepository (spec §4.3), whose implementation is not
part of this source tree — it "appends new evidence entries (never overwrites
prior evidence — evidence is append-only); if status transitions to
VALIDATED/REJECTED, requires the evidence list (existing + newly appended) to
be non-empty, else fails with InvalidTransition"; `updated_at` is refreshed. -/
def update_hypothesis (h : HypothesisDoc) (newStatus : Option HypStatus)
    (newEvidence : List Evidence) (now : Int) : Except RepoError HypothesisDoc :=
  let combined := h.evidence ++ newEvidence
  match newStatus with
  | some s =>
      if (s = .VALIDATED ∨ s = .REJECTED) ∧ combined = [] then
        .error .InvalidTransition
      else
        .ok { h with status := s, evidence := combined, updated_at := now }
  | none => .ok { h with evidence := combined, updated_at := now }

/-- Modelled from the spec: `create_issue(experiment_id, title, description,
severity, evidence[], hypothesis_id?)` of EntityRepository (spec §4.3), whose
implementation is not part of this source tree — it "requires
len(evidence) >= 1" (else ValidationError, spec §8), "writes into the umbrella
container; status initialized to OPEN".  `newId` stands for the identifier the
repository allocates for the new document. -/
def create_issue (_experimentId newId title description : String) (severity : Severity)
    (evidence : List IssueEvidence) (hypothesisId : Option String)
    (sourceRunId : Option String) (now : Int) : Except RepoError IssueDoc :=
  if evidence = [] then
    .error .ValidationError
  else
    .ok { issue_id := newId
          source_run_id := sourceRunId
          hypothesis_id := hypothesisId
          title := title
          description := description
          severity := severity
          status := .OPEN
          evidence := evidence
          assessments := []
          resolution := none
          created_at := now
          updated_at := now }

/-! ### RunsView evidence-count rendering (`RunsView.tsx`) -/

/-- JavaScript `x || y` on an optional number: falls through to `y` when `x` is
absent (`undefined`) or `0` (falsy). -/
def jsNumOr (x : Option Nat) (y : Nat) : Nat :=
  match x with
  | some n => if n = 0 then y else n
  | none => y

/-- The evidence item count rendered by `HypothesisPanel` in `RunsView.tsx`:
`hypothesis.evidence_count || hypothesis.evidence?.length || 0`. -/
def displayedEvidenceCount (h : Hypothesis) : Nat :=
  jsNumOr h.evidence_count (jsNumOr (h.evidence.map List.length) 0)

/-! ### Polling intervals (`useAgenticInsightsApi.ts`) -/

/-- A react-query `refetchInterval` value: a number of milliseconds, or the
literal `false` (polling off). -/
inductive RefetchValue where
  | ms (n : Int)
  | off
deriving DecidableEq, Repr

/-- The options object accepted by `useHypothesesList`. -/
structure UseHypothesesListOptions where
  enabled : Option Bool
  refetchInterval : Option RefetchValue
  isActiveRun : Option Bool
deriving DecidableEq, Repr

/-- The `refetchInterval` computed by `useHypothesesList`:
`options?.isActiveRun ? 2000 : (options?.refetchInterval ?? 30000)`. -/
def hypothesesListRefetchInterval (options : Option UseHypothesesListOptions) : RefetchValue :=
  if (options.bind (·.isActiveRun)).getD false then .ms 2000
  else (options.bind (·.refetchInterval)).getD (.ms 30000)

/-- The interval in effect for `HypothesisPanel` (`RunsView.tsx`), which calls
`useHypothesesList(runId, { isActiveRun: isActive })`. -/
def hypothesisPanelRefetchInterval (isActive : Bool) : RefetchValue :=
  hypothesesListRefetchInterval
    (some { enabled := none, refetchInterval := none, isActiveRun := some isActive })

/-! ### Preview request bodies (`useAgenticInsightsApi.ts`) -/

/-- The POST body built by `useIssuesPreview`; `max_traces = none` means the
key is absent from the serialized body. -/
structure IssuesPreviewBody where
  experiment_id : String
  max_traces : Option Int
deriving DecidableEq, Repr

/-- The POST body built by `useHypothesesPreview`. -/
structure HypothesesPreviewBody where
  insights_run_id : String
  max_traces : Option Int
deriving DecidableEq, Repr

/-- Body of `useIssuesPreview`:
`{ experiment_id: experimentId!, ...(maxTraces && { max_traces: maxTraces }) }`.
The spread contributes the key only when `maxTraces` is truthy (a non-zero
number); `undefined` and `0` contribute nothing. -/
def issuesPreviewRequestBody (experimentId : String) (maxTraces : Option Int) :
    IssuesPreviewBody where
  experiment_id := experimentId
  max_traces :=
    match maxTraces with
    | some n => if n = 0 then none else some n
    | none => none

/-- Body of `useHypothesesPreview`:
`{ insights_run_id: runId!, ...(maxTraces && { max_traces: maxTraces }) }`. -/
def hypothesesPreviewRequestBody (runId : String) (maxTraces : Option Int) :
    HypothesesPreviewBody where
  insights_run_id := runId
  max_traces :=
    match maxTraces with
    | some n => if n = 0 then none else some n
    | none => none

/-! ### The POST helper (`postAgenticApi` of `useAgenticInsightsApi.ts`) -/

/-- A completed fetch response as observed by `postAgenticApi`: its `ok` flag,
its `statusText`, the `message` field of the parsed error body when parsing
succeeded and the field is present, and the parsed success body. -/
structure FetchResponse (β : Type) where
  ok : Bool
  statusText : String
  errorMessage : Option String
  body : β

/-- `postAgenticApi` of `useAgenticInsightsApi.ts`, as a function of the
completed response: on `ok` it returns the parsed body; otherwise it throws
`new Error(errorData.message || 'API request failed: ' + statusText)` — the
server message when present and truthy, else the fallback. -/
def postAgenticApi {β : Type} (resp : FetchResponse β) : Except String β :=
  if resp.ok then
    .ok resp.body
  else
    .error (match resp.errorMessage with
      | some m => if m = "" then "API request failed: " ++ resp.statusText else m
      | none => "API request failed: " ++ resp.statusText)

/-! ### `formatValue` (TracePreview component) -/

/-- A JavaScript value as seen by `formatValue`.  Renderings that the
JavaScript runtime produces (`String(value)` for numbers, `JSON.stringify` for
objects) are carried as data: `jnum` holds the decimal rendering of the
number, `jobj` holds the `JSON.stringify(value, null, 2)` result when
serialization succeeds (`none` when it throws) together with the `String(value)`
fallback used in that case. -/
inductive JsValue where
  | jnull
  | jundefined
  | jstr (s : List Char)
  | jbool (b : Bool)
  | jnum (rendering : List Char)
  | jobj (json : Option (List Char)) (strFallback : List Char)
deriving DecidableEq, Repr

/-- The string `str` computed by `formatValue` for a non-null, non-undefined
value: the value itself for strings, the `JSON.stringify` result (or
`String(value)` fallback) for objects, `String(value)` otherwise. -/
def jsRendering : JsValue → List Char
  | .jnull => "null".data
  | .jundefined => "undefined".data
  | .jstr s => s
  | .jbool b => if b then "true".data else "false".data
  | .jnum r => r
  | .jobj json strFallback => json.getD strFallback

/-- `formatValue` of the `TracePreview` component: `null`/`undefined` render as
`'null'`; otherwise the rendering is truncated to its first `maxLength`
characters followed by `'...'` when it is longer than `maxLength`. -/
def formatValue (value : JsValue) (maxLength : Nat) : List Char :=
  match value with
  | .jnull => "null".data
  | .jundefined => "null".data
  | v =>
      let str := jsRendering v
      if str.length > maxLength then str.take maxLength ++ "...".data else str

/-! ### AI Analysis subpage URL state (`InsightsPageAIAnalysis.tsx`) -/

/-- URL search parameters, embedded as an association list of key/value
pairs. -/
abbrev SearchParams := List (String × String)

/-- `params.get(key)`: the value of the first entry with the given key. -/
def getParam : SearchParams → String → Option String
  | [], _ => none
  | p :: ps, key => if p.1 = key then some p.2 else getParam ps key

/-- `params.delete(key)`: removes every entry with the given key. -/
def deleteParam : SearchParams → String → SearchParams
  | [], _ => []
  | p :: ps, key => if p.1 = key then deleteParam ps key else p :: deleteParam ps key

/-- `params.set(key, value)`: replaces all entries with the given key by a
single entry holding the new value. -/
def setParam (params : SearchParams) (key value : String) : SearchParams :=
  deleteParam params key ++ [(key, value)]

/-- The `aiAnalysisSubpage` search parameter name. -/
def AI_ANALYSIS_SUBPAGE_PARAM : String := "aiAnalysisSubpage"

/-- `currentSubpage` of `InsightsPageAIAnalysis.tsx`:
`searchParams.get(AI_ANALYSIS_SUBPAGE_PARAM) || 'issues'` — a missing (or
falsy, i.e. empty) parameter yields the default `'issues'`. -/
def currentSubpage (params : SearchParams) : String :=
  match getParam params AI_ANALYSIS_SUBPAGE_PARAM with
  | some s => if s = "" then "issues" else s
  | none => "issues"

/-- `handleTabChange` of `InsightsPageAIAnalysis.tsx`: selecting `'issues'`
deletes the parameter (to keep the URL clean); any other tab value is stored
in the parameter. -/
def handleTabChange (value : String) (params : SearchParams) : SearchParams :=
  if value = "issues" then deleteParam params AI_ANALYSIS_SUBPAGE_PARAM
  else setParam params AI_ANALYSIS_SUBPAGE_PARAM value

/-! ### Theorems -/

/-- C1: Lists of issues presented by `IssuesView` under its default sort
(`sortField = 'trace_count'`, `sortOrder = 'desc'`) are ordered by
`trace_count` descending with ties broken by `created_at` descending: the
backend contract (`BackendIssuesOrder`, modelled from the spec) delivers the
list in that order, and the stable client-side `sortedIssues` keeps it
unchanged; in particular, issues with trace_counts `[3, 1, 5]` come out with
trace_counts `[5, 3, 1]`. -/
theorem list_issues_default_sort_contract :
    (∀ l : List Issue, BackendIssuesOrder l →
        sortedIssues .trace_count .desc l = l ∧
        (sortedIssues .trace_count .desc l).Pairwise issueLexGE) ∧
    (sortedIssues .trace_count .desc
        [sampleIssue 3 100, sampleIssue 1 200, sampleIssue 5 300]).map traceCountOrZero
      = [5, 3, 1] := by
  constructor
  · intro l hl
    have hmono : ∀ a b : Issue, issueLexGE a b → issueLE .trace_count .desc a b := by
      intro a b hab
      rcases hab with h | ⟨h1, _⟩ <;> simp [issueLE, issueCompare, compareValue] <;> omega
    have hs : List.Sorted (issueLE .trace_count .desc) l := hl.imp (hmono _ _)
    have heq : sortedIssues .trace_count .desc l = l := by
      unfold sortedIssues
      exact hs.insertionSort_eq
    exact ⟨heq, by rw [heq]; exact hl⟩
  · decide

/-- Witness for C1 at a concrete backend-ordered list. -/
theorem list_issues_default_sort_contract_witness :
    BackendIssuesOrder [sampleIssue 5 300, sampleIssue 3 100] ∧
    sortedIssues .trace_count .desc [sampleIssue 5 300, sampleIssue 3 100]
      = [sampleIssue 5 300, sampleIssue 3 100] := by
  have h : BackendIssuesOrder [sampleIssue 5 300, sampleIssue 3 100] := by decide
  exact ⟨h, (list_issues_default_sort_contract.1 _ h).1⟩

/-- C8: The `sortedIssues` comparator ranks severities by the table
CRITICAL ↦ 4, HIGH ↦ 3, MEDIUM ↦ 2, LOW ↦ 1, so a descending severity sort
yields a list in which severity ranks never increase (every CRITICAL issue
precedes every HIGH issue, which precedes every MEDIUM, which precedes every
LOW); and for every sort field the ascending comparator is the exact negation
of the descending comparator. -/
theorem issues_severity_sort_and_comparator_negation :
    (severityOrder .CRITICAL = 4 ∧ severityOrder .HIGH = 3 ∧
      severityOrder .MEDIUM = 2 ∧ severityOrder .LOW = 1) ∧
    (∀ l : List Issue, (sortedIssues .severity .desc l).Pairwise
      (fun a b => severityOrder b.severity ≤ severityOrder a.severity)) ∧
    (∀ (field : SortField) (a b : Issue),
      issueCompare field .asc a b = -(issueCompare field .desc a b)) := by
  refine ⟨⟨rfl, rfl, rfl, rfl⟩, ?_, ?_⟩
  · intro l
    haveI htot : IsTotal Issue (issueLE .severity .desc) := ⟨by
      intro a b
      simp [issueLE, issueCompare, compareValue]
      omega⟩
    haveI htrans : IsTrans Issue (issueLE .severity .desc) := ⟨by
      intro a b c hab hbc
      simp [issueLE, issueCompare, compareValue] at *
      omega⟩
    have hs : (sortedIssues .severity .desc l).Pairwise (issueLE .severity .desc) := by
      unfold sortedIssues
      exact List.sorted_insertionSort (issueLE .severity .desc) l
    refine hs.imp ?_
    intro a b hab
    simp [issueLE, issueCompare, compareValue] at hab
    omega
  · intro field a b
    simp [issueCompare]

/-- A concrete hypothesis document with no evidence attached. -/
def sampleHypothesisDoc : HypothesisDoc where
  hypothesis_id := "h-1"
  statement := "statement"
  testing_plan := "plan"
  status := .TESTING
  evidence := []
  created_at := 1
  updated_at := 1

/-- C2: `update_hypothesis` with a status of VALIDATED or REJECTED fails with
`InvalidTransition` exactly when the existing evidence together with the newly
supplied evidence is empty, and otherwise succeeds with the evidence appended
and the status applied. -/
theorem update_hypothesis_terminal_status_requires_evidence :
    ∀ (h : HypothesisDoc) (s : HypStatus) (newEvidence : List Evidence) (now : Int),
      s = .VALIDATED ∨ s = .REJECTED →
      (h.evidence ++ newEvidence = [] →
        update_hypothesis h (some s) newEvidence now = .error .InvalidTransition) ∧
      (h.evidence ++ newEvidence ≠ [] →
        update_hypothesis h (some s) newEvidence now =
          .ok { h with status := s, evidence := h.evidence ++ newEvidence,
                       updated_at := now }) := by
  intro h s newEvidence now hs
  rcases hs with hs | hs <;> subst hs <;> constructor <;> intro hemp <;>
    simp [update_hypothesis, hemp]

/-- A concrete evidence entry used by the witnesses below. -/
def sampleEvidence : Evidence where
  trace_id := "tr-9"
  rationale := "x"
  supports := true

/-- Witness for C2: an evidence-free VALIDATED transition is rejected, and the
same transition with one evidence entry succeeds. -/
theorem update_hypothesis_terminal_status_requires_evidence_witness :
    update_hypothesis sampleHypothesisDoc (some .VALIDATED) [] 2
      = .error .InvalidTransition ∧
    update_hypothesis sampleHypothesisDoc (some .VALIDATED) [sampleEvidence] 2
      = .ok { hypothesis_id := "h-1", statement := "statement", testing_plan := "plan",
              status := .VALIDATED, evidence := [sampleEvidence],
              created_at := 1, updated_at := 2 } := by
  constructor
  · exact (update_hypothesis_terminal_status_requires_evidence
      sampleHypothesisDoc .VALIDATED [] 2 (Or.inl rfl)).1 rfl
  · have h := (update_hypothesis_terminal_status_requires_evidence
      sampleHypothesisDoc .VALIDATED [sampleEvidence] 2 (Or.inl rfl)).2 (by decide)
    simpa [sampleHypothesisDoc] using h

/-- C3: `create_issue` with an empty evidence list fails with
`ValidationError`; with a single evidence entry it succeeds, the stored
document's evidence is exactly that one entry, and the created issue's status
is OPEN. -/
theorem create_issue_requires_evidence :
    ∀ (eid newId title description : String) (sev : Severity)
      (hid srid : Option String) (now : Int),
      create_issue eid newId title description sev [] hid srid now
        = .error .ValidationError ∧
      ∀ e : IssueEvidence, ∃ doc : IssueDoc,
        create_issue eid newId title description sev [e] hid srid now = .ok doc ∧
        doc.evidence = [e] ∧ doc.status = .OPEN := by
  intro eid newId title description sev hid srid now
  constructor
  · unfold create_issue
    rw [if_pos rfl]
  · intro e
    refine ⟨{ issue_id := newId, source_run_id := srid, hypothesis_id := hid,
              title := title, description := description, severity := sev,
              status := .OPEN, evidence := [e], assessments := [],
              resolution := none, created_at := now, updated_at := now }, ?_, rfl, rfl⟩
    unfold create_issue
    rw [if_neg (by simp)]

/-- A concrete hypothesis response carrying only counters. -/
def sampleHypothesisCounts : Hypothesis where
  hypothesis_id := "h-2"
  statement := "statement"
  testing_plan := none
  status := .TESTING
  evidence := none
  evidence_count := some 5
  trace_count := some 4
  supports_count := some 3
  refutes_count := some 2
  created_at := 1
  updated_at := 1

/-- C4: the `evidence` field of a listed hypothesis may be omitted, and the
evidence item count rendered by `RunsView` is `evidence_count` when present
and truthy, else the length of the `evidence` list when present, else 0. -/
theorem hypothesis_evidence_count_fallback :
    (∃ h : Hypothesis, h.evidence = none) ∧
    ∀ h : Hypothesis,
      (∀ n : Nat, h.evidence_count = some n → n ≠ 0 → displayedEvidenceCount h = n) ∧
      (h.evidence_count = none ∨ h.evidence_count = some 0 →
        (∀ l : List Evidence, h.evidence = some l → displayedEvidenceCount h = l.length) ∧
        (h.evidence = none → displayedEvidenceCount h = 0)) := by
  refine ⟨⟨sampleHypothesisCounts, rfl⟩, ?_⟩
  intro h
  constructor
  · intro n hn hnz
    simp [displayedEvidenceCount, jsNumOr, hn, hnz]
  · intro hec
    constructor
    · intro l hl
      rcases hec with hec | hec <;>
        simp [displayedEvidenceCount, jsNumOr, hec, hl] <;>
        (intro h0; subst h0; rfl)
    · intro hl
      rcases hec with hec | hec <;> simp [displayedEvidenceCount, jsNumOr, hec, hl]

/-- Witness for C4 at a hypothesis whose `evidence_count` is a truthy 5. -/
theorem hypothesis_evidence_count_fallback_witness :
    displayedEvidenceCount sampleHypothesisCounts = 5 :=
  (hypothesis_evidence_count_fallback.2 sampleHypothesisCounts).1 5 rfl (by decide)

/-- C5: `useHypothesesList` polls every 2000 ms whenever `isActiveRun` is
true, and every 30000 ms by default otherwise (including when no options are
passed); `HypothesisPanel` therefore polls a live (ACTIVE) run at 2000 ms and
any other run at 30000 ms. -/
theorem hypotheses_list_polling_interval :
    (∀ opts : UseHypothesesListOptions, opts.isActiveRun = some true →
      hypothesesListRefetchInterval (some opts) = .ms 2000) ∧
    (∀ opts : UseHypothesesListOptions,
      opts.isActiveRun = none ∨ opts.isActiveRun = some false →
      opts.refetchInterval = none →
      hypothesesListRefetchInterval (some opts) = .ms 30000) ∧
    hypothesesListRefetchInterval none = .ms 30000 ∧
    (∀ isActive : Bool, hypothesisPanelRefetchInterval isActive
      = if isActive then .ms 2000 else .ms 30000) := by
  refine ⟨?_, ?_, rfl, ?_⟩
  · intro opts h
    simp [hypothesesListRefetchInterval, h]
  · intro opts hact hint
    rcases hact with h | h <;> simp [hypothesesListRefetchInterval, h, hint]
  · intro isActive
    cases isActive <;> rfl

/-- Witness for C5: an options object with `isActiveRun := true` polls at
2000 ms. -/
theorem hypotheses_list_polling_interval_witness :
    hypothesesListRefetchInterval
        (some { enabled := none, refetchInterval := none, isActiveRun := some true })
      = .ms 2000 :=
  hypotheses_list_polling_interval.1
    { enabled := none, refetchInterval := none, isActiveRun := some true } rfl

/-- C6 counterexample: the claim "max_traces is included in the POST body
exactly when the caller supplies maxTraces" fails at the supplied value `0`:
the spread `...(maxTraces && { max_traces: maxTraces })` treats `0` as falsy
and omits the key from both preview bodies. -/
theorem preview_max_traces_zero_dropped :
    (issuesPreviewRequestBody "exp-1" (some 0)).max_traces = none ∧
    (hypothesesPreviewRequestBody "run-1" (some 0)).max_traces = none := by
  exact ⟨rfl, rfl⟩

/-- C6 (amended): `useIssuesPreview` and `useHypothesesPreview` include
`max_traces` in the POST body exactly when the caller supplies a truthy
(non-zero) `maxTraces`, the container identifier is always carried, and
`PreviewTracesResponse` contains `traces`, `total_count` and
`returned_count`. -/
theorem preview_request_max_traces_and_response_shape :
    (∀ (eid : String) (n : Int), n ≠ 0 →
      (issuesPreviewRequestBody eid (some n)).max_traces = some n) ∧
    (∀ eid : String, (issuesPreviewRequestBody eid none).max_traces = none ∧
      (issuesPreviewRequestBody eid (some 0)).max_traces = none) ∧
    (∀ (eid : String) (mt : Option Int),
      (issuesPreviewRequestBody eid mt).experiment_id = eid) ∧
    (∀ (rid : String) (n : Int), n ≠ 0 →
      (hypothesesPreviewRequestBody rid (some n)).max_traces = some n) ∧
    (∀ rid : String, (hypothesesPreviewRequestBody rid none).max_traces = none ∧
      (hypothesesPreviewRequestBody rid (some 0)).max_traces = none) ∧
    (∀ (rid : String) (mt : Option Int),
      (hypothesesPreviewRequestBody rid mt).insights_run_id = rid) ∧
    (∀ (ts : List TracePreview) (tc rc : Nat),
      (PreviewTracesResponse.mk ts tc rc).traces = ts ∧
      (PreviewTracesResponse.mk ts tc rc).total_count = tc ∧
      (PreviewTracesResponse.mk ts tc rc).returned_count = rc) := by
  refine ⟨?_, fun eid => ⟨rfl, rfl⟩, fun eid mt => rfl, ?_,
    fun rid => ⟨rfl, rfl⟩, fun rid mt => rfl, fun ts tc rc => ⟨rfl, rfl, rfl⟩⟩
  · intro eid n hn
    simp [issuesPreviewRequestBody, hn]
  · intro rid n hn
    simp [hypothesesPreviewRequestBody, hn]

/-- Witness for C6 (amended) at a supplied non-zero limit. -/
theorem preview_request_max_traces_witness :
    (issuesPreviewRequestBody "exp-1" (some 5)).max_traces = some 5 :=
  preview_request_max_traces_and_response_shape.1 "exp-1" 5 (by decide)

/-- C7: on a non-OK response `postAgenticApi` never returns a result — it
throws an error carrying the server's message when present and truthy, and
otherwise a fallback message naming the failed request via its status text. -/
theorem post_agentic_api_error_propagation :
    ∀ (β : Type) (resp : FetchResponse β), resp.ok = false →
      (∀ b : β, postAgenticApi resp ≠ .ok b) ∧
      (∀ m : String, resp.errorMessage = some m → m ≠ "" →
        postAgenticApi resp = .error m) ∧
      (resp.errorMessage = none ∨ resp.errorMessage = some "" →
        postAgenticApi resp = .error ("API request failed: " ++ resp.statusText)) := by
  intro β resp hok
  refine ⟨?_, ?_, ?_⟩
  · intro b hcontra
    simp [postAgenticApi, hok] at hcontra
  · intro m hm hne
    simp [postAgenticApi, hok, hm, hne]
  · intro hmsg
    rcases hmsg with h | h <;> simp [postAgenticApi, hok, h]

/-- Witness for C7: a 400-style response with an unparsable body produces the
fallback error message. -/
theorem post_agentic_api_error_propagation_witness :
    postAgenticApi
        { ok := false, statusText := "Bad Request", errorMessage := none,
          body := (0 : Nat) }
      = .error ("API request failed: " ++ "Bad Request") :=
  (post_agentic_api_error_propagation Nat
    { ok := false, statusText := "Bad Request", errorMessage := none, body := 0 }
    rfl).2.2 (Or.inl rfl)

/-- For a value that is neither `null` nor `undefined`, `formatValue` is the
truncation of its rendering. -/
theorem formatValue_of_not_nullish (v : JsValue) (maxLength : Nat)
    (hn : v ≠ .jnull) (hu : v ≠ .jundefined) :
    formatValue v maxLength =
      if (jsRendering v).length > maxLength then
        (jsRendering v).take maxLength ++ "...".data
      else jsRendering v := by
  cases v with
  | jnull => exact absurd rfl hn
  | jundefined => exact absurd rfl hu
  | jstr s => rfl
  | jbool b => rfl
  | jnum r => rfl
  | jobj json strFallback => rfl

/-- C9 counterexample: the claim's output bound "never exceeds
maxLength + 3 characters" fails for every maxLength below 1: at
`formatValue null 0` the output is the 4-character string `'null'`, which
exceeds `0 + 3`. -/
theorem format_value_bound_fails_at_zero :
    formatValue .jnull 0 = "null".data ∧
    ¬ ((formatValue .jnull 0).length ≤ 0 + 3) := by
  exact ⟨rfl, by decide⟩

/-- C9 (amended): for every `maxLength ≥ 1`, `formatValue` is total with
output of at most `maxLength + 3` characters: `null` and `undefined` map to
`'null'`, a string of length at most `maxLength` is returned unchanged, and
any longer rendering is truncated to its first `maxLength` characters
followed by `'...'`. -/
theorem format_value_truncation_bound :
    ∀ (v : JsValue) (maxLength : Nat), 1 ≤ maxLength →
      (formatValue v maxLength).length ≤ maxLength + 3 ∧
      formatValue .jnull maxLength = "null".data ∧
      formatValue .jundefined maxLength = "null".data ∧
      (∀ s : List Char, s.length ≤ maxLength → formatValue (.jstr s) maxLength = s) ∧
      (v ≠ .jnull → v ≠ .jundefined → (jsRendering v).length > maxLength →
        formatValue v maxLength = (jsRendering v).take maxLength ++ "...".data) := by
  intro v maxLength hml
  have hdots : ("...".data).length = 3 := rfl
  refine ⟨?_, rfl, rfl, ?_, ?_⟩
  · by_cases hn : v = .jnull
    · subst hn
      have h4 : (formatValue .jnull maxLength).length = 4 := rfl
      omega
    by_cases hu : v = .jundefined
    · subst hu
      have h4 : (formatValue .jundefined maxLength).length = 4 := rfl
      omega
    rw [formatValue_of_not_nullish v maxLength hn hu]
    by_cases hgt : (jsRendering v).length > maxLength
    · rw [if_pos hgt, List.length_append, List.length_take, hdots]
      omega
    · rw [if_neg hgt]
      omega
  · intro s hs
    have hng : ¬ ((jsRendering (.jstr s)).length > maxLength) := by
      simpa [jsRendering] using hs
    rw [formatValue_of_not_nullish (.jstr s) maxLength (by simp) (by simp), if_neg hng]
    rfl
  · intro hn hu hgt
    rw [formatValue_of_not_nullish v maxLength hn hu, if_pos hgt]

/-- Witness for C9 (amended): the five-character string `'hello'` truncated at
maxLength 3. -/
theorem format_value_truncation_bound_witness :
    formatValue (.jstr "hello".data) 3 = ("hello".data).take 3 ++ "...".data :=
  (format_value_truncation_bound (.jstr "hello".data) 3 (by decide)).2.2.2.2
    (by decide) (by decide) (by decide)

/-- Deleting a key removes it: `get` afterwards yields `none`. -/
theorem getParam_deleteParam (ps : SearchParams) (k : String) :
    getParam (deleteParam ps k) k = none := by
  induction ps with
  | nil => rfl
  | cons p ps ih =>
    by_cases hp : p.1 = k
    · simpa [deleteParam, hp] using ih
    · simpa [deleteParam, getParam, hp] using ih

/-- Setting a key stores its value: `get` afterwards yields it. -/
theorem getParam_setParam (ps : SearchParams) (k v : String) :
    getParam (setParam ps k v) k = some v := by
  unfold setParam
  induction ps with
  | nil => simp [deleteParam, getParam]
  | cons p ps ih =>
    by_cases hp : p.1 = k
    · simpa [deleteParam, hp] using ih
    · simpa [deleteParam, getParam, hp] using ih

/-- C10: the AI Analysis subpage selection round-trips through the URL —
selecting the `'issues'` tab deletes the `aiAnalysisSubpage` parameter,
reading with the parameter absent yields `'issues'`, and reading after
selecting any (non-empty) tab value returns that same value. -/
theorem ai_analysis_subpage_url_roundtrip :
    (∀ params : SearchParams,
      getParam (handleTabChange "issues" params) AI_ANALYSIS_SUBPAGE_PARAM = none) ∧
    (∀ params : SearchParams,
      getParam params AI_ANALYSIS_SUBPAGE_PARAM = none →
      currentSubpage params = "issues") ∧
    (∀ (params : SearchParams) (v : String), v ≠ "" →
      currentSubpage (handleTabChange v params) = v) := by
  refine ⟨?_, ?_, ?_⟩
  · intro params
    simpa [handleTabChange] using
      getParam_deleteParam params AI_ANALYSIS_SUBPAGE_PARAM
  · intro params h
    simp [currentSubpage, h]
  · intro params v hv
    by_cases hvi : v = "issues"
    · subst hvi
      simp [handleTabChange, currentSubpage, getParam_deleteParam]
    · simp [handleTabChange, hvi, currentSubpage, getParam_setParam, hv]

/-- Witness for C10: selecting the `'runs'` tab and reading it back. -/
theorem ai_analysis_subpage_url_roundtrip_witness :
    currentSubpage (handleTabChange "runs" []) = "runs" :=
  ai_analysis_subpage_url_roundtrip.2.2 [] "runs" (by decide)
